import Mathlib

set_option linter.unusedVariables false

/-!
Shallow embedding of the EVM chain backend (`EthContext`) of the
wormhole-connect chain-abstraction layer, together with the bridge message
codec and address codec, and proofs of the spec-level properties about them.

Addresses, transaction payloads and attestations are modelled as byte lists
(`List Nat`, each entry one byte); the hex-string representation used by the
TypeScript source is in bijection with these byte lists, so string-level
operations (`zeroPad`, `stripZeros`, `getAddress`) are modelled at byte level.
Network interaction (providers, contracts, signers) is modelled by an
environment of oracle functions, and every operation returns the ordered list
of network/contract events it performed, so that ordering and counting claims
("zero network queries", "simulate strictly precedes submission", "exactly one
approval transaction") are statable.
-/

namespace Wormhole

abbrev ChainName := String
abbrev ChainId := Nat

/-- A chain reference, as in the source's `ChainName | ChainId` unions:
either a symbolic name or a numeric id. -/
abbrev ChainRef := Sum ChainName ChainId

/-- Byte string (each entry one byte). -/
abbrev Bytes := List Nat

/-- The token's native identity on its home chain (`types.ts`). -/
structure TokenId where
  chain : ChainName
  address : Bytes
deriving DecidableEq, Repr

/-- The `TokenId | 'native'` argument type of the send operations. -/
inductive TokenArg
  | native
  | tid (t : TokenId)
deriving DecidableEq, Repr

/-- A `BigNumberish` amount as passed to `approve`: either a JS `number`
(whose zero is falsy) or a `BigNumber` object (always truthy, even at zero). -/
inductive BigNumberish
  | num (n : Nat)
  | big (n : Nat)
deriving DecidableEq, Repr

/-- Error taxonomy of the core (spec section 7), as raised by the embedded
operations. -/
inductive Err
  | noSigner (chain : ChainId)
  | assetNotRegistered
  | simulationFailed
  | unrecognizedPayloadDiscriminant (b : Nat)
  | malformedPayload
  | noReceipt
  | invalidAddress
deriving DecidableEq, Repr

/-- A populated (constructed but not yet submitted) transaction, by bridge or
relayer entry point, carrying the call arguments. -/
inductive PopulatedTx
  | wrapAndTransferETH (chainId : ChainId) (recipient : Bytes) (relayerFee : Nat) (value : Nat)
  | transferTokens (token : Bytes) (amount : Nat) (chainId : ChainId) (recipient : Bytes) (relayerFee : Nat)
  | completeTransfer (vaa : Bytes)
  | wrapAndTransferEthWithRelay (toNativeTokenAmount : Nat) (chainId : ChainId) (recipient : Bytes) (batchId : Nat) (value : Nat)
  | transferTokensWithRelay (token : Bytes) (amount : Nat) (toNativeTokenAmount : Nat) (chainId : ChainId) (recipient : Bytes) (batchId : Nat)
deriving DecidableEq, Repr

/-- One network/contract interaction performed by an operation, in order. -/
inductive Event
  | allowanceQuery (token owner spender : Bytes)
  | approveTx (token spender : Bytes) (amount : Nat)
  | wrappedAssetQuery (bridgeChain : ChainId) (homeChain : ChainId) (tokenAddr : Bytes)
  | wethQuery (chain : ChainId)
  | assocTokenAccountQuery
  | simulateWrapAndTransferETH (chainId : ChainId) (recipient : Bytes) (relayerFee : Nat) (value : Nat) (sender : Bytes)
  | populateWrapAndTransferETH (chainId : ChainId) (recipient : Bytes) (relayerFee : Nat) (value : Nat)
  | simulateTransferTokens (token : Bytes) (amount : Nat) (chainId : ChainId) (recipient : Bytes) (relayerFee : Nat) (sender : Bytes)
  | populateTransferTokens (token : Bytes) (amount : Nat) (chainId : ChainId) (recipient : Bytes) (relayerFee : Nat)
  | simulateCompleteTransfer (vaa : Bytes)
  | populateCompleteTransfer (vaa : Bytes)
  | populateWrapAndTransferEthWithRelay (toNativeTokenAmount : Nat) (chainId : ChainId) (recipient : Bytes) (batchId : Nat) (value : Nat)
  | populateTransferTokensWithRelay (token : Bytes) (amount : Nat) (toNativeTokenAmount : Nat) (chainId : ChainId) (recipient : Bytes) (batchId : Nat)
  | sendTransaction (tx : PopulatedTx)
  | waitMined
deriving DecidableEq, Repr

/-- On-chain mutable state visible to these operations: the ERC-20 allowance
map, indexed by token address, owner and spender. -/
structure World where
  allowance : Bytes → Bytes → Bytes → Nat

/-- One receipt log entry, after the core ABI interface's `parseLog` has
extracted the message envelope (emitting contract, payload bytes, sequence). -/
structure TxLog where
  address : Bytes
  payload : Bytes
  sequence : Nat
deriving DecidableEq, Repr

/-- A transaction receipt as returned by the provider. `gasUsed` and
`effectiveGasPrice` are optional because some backends omit them. -/
structure Receipt where
  fromAddress : Bytes
  gasUsed : Option Nat
  effectiveGasPrice : Option Nat
  blockNumber : Nat
  logs : List TxLog
deriving DecidableEq, Repr

/-- Decoded basic transfer message (`types.ts` `ParsedMessage`). -/
structure ParsedMessage where
  sendTx : String
  sender : Bytes
  amount : Nat
  payloadID : Nat
  recipient : Bytes
  toChain : ChainName
  fromChain : ChainName
  tokenAddress : Bytes
  tokenChain : ChainName
  tokenId : TokenId
  sequence : Nat
  emitterAddress : Bytes
  block : Nat
  gasFee : Option Nat
deriving DecidableEq, Repr

/-- Decoded relayer sub-payload (`types.ts` `ParsedRelayerPayload`). -/
structure ParsedRelayerPayload where
  relayerPayloadId : Nat
  toAddress : Bytes
  relayerFee : Nat
  toNativeTokenAmount : Nat
deriving DecidableEq, Repr

/-- Decoded transfer-with-payload message plus relayer sub-fields
(`types.ts` `ParsedRelayerMessage = ParsedMessage & ParsedRelayerPayload`). -/
structure ParsedRelayerMessage where
  sendTx : String
  sender : Bytes
  amount : Nat
  payloadID : Nat
  toAddress : Bytes
  toChain : ChainName
  fromChain : ChainName
  tokenAddress : Bytes
  tokenChain : ChainName
  tokenId : TokenId
  sequence : Nat
  emitterAddress : Bytes
  block : Nat
  gasFee : Option Nat
  payload : Bytes
  relayerPayloadId : Nat
  recipient : Bytes
  relayerFee : Nat
  toNativeTokenAmount : Nat
deriving DecidableEq, Repr

/-- Either message kind, as in `ParsedMessage[] | ParsedRelayerMessage[]`. -/
inductive AnyMessage
  | basic (m : ParsedMessage)
  | relayer (m : ParsedRelayerMessage)
deriving DecidableEq, Repr

/-- Gas fee recorded on a message of either kind. -/
def AnyMessage.gasFee : AnyMessage → Option Nat
  | .basic m => m.gasFee
  | .relayer m => m.gasFee

/-- Raw fields of a decoded token bridge transfer payload (both variants). -/
structure TransferPayload where
  payloadID : Nat
  amount : Nat
  tokenAddress : Bytes
  tokenChain : ChainId
  toAddress : Bytes
  toChain : ChainId
  payload : Bytes
deriving DecidableEq, Repr

/-- The external world: static configuration lookups (registry, contracts,
signer configuration) and the chain-specific codec/query services of the other
chain contexts, all keyed by the coalesced numeric chain id. Oracle functions
standing for network responses are arbitrary; theorems quantify over them. -/
structure Env where
  chainIdOf : ChainName → ChainId
  chainNameOf : ChainId → ChainName
  signerOf : ChainId → Option Bytes
  bridgeAddressOf : ChainId → Bytes
  coreAddressOf : ChainId → Bytes
  relayerAddressOf : ChainId → Bytes
  wrappedAssetOf : ChainId → ChainId → Bytes → Bytes
  formatAssetAddressOn : ChainId → Bytes → Bytes
  parseAssetAddressOn : ChainId → Bytes → Except Err Bytes
  formatAddressOn : ChainId → Bytes → Bytes
  parseAddressOn : ChainId → Bytes → Except Err Bytes
  parseRelayerPayloadOn : ChainId → Bytes → Except Err ParsedRelayerPayload
  wethAddress : ChainId → Bytes
  assocTokenAccountOf : TokenId → Bytes → Bytes
  simWrapETH : Bool
  simTransferTokens : Bool
  simCompleteTransfer : Bool
  receiptOf : ChainId → String → Option Receipt

/-- Chain-reference coalescing (`context.toChainId`): a symbolic name is
mapped through the registry, a numeric id passes through. -/
def toChainId (env : Env) : ChainRef → ChainId
  | .inl name => env.chainIdOf name
  | .inr id => id

/-- Chain-reference coalescing to a name (`context.toChainName`). -/
def toChainName (env : Env) : ChainRef → ChainName
  | .inl name => name
  | .inr id => env.chainNameOf id

/-- The 20-byte zero address (`ethers.constants.AddressZero`). -/
def zeroAddress : Bytes := List.replicate 20 0

/-- The unbounded allowance (`ethers.constants.MaxUint256`). -/
def maxUint256 : Nat := 2 ^ 256 - 1

/-- JS coercion `amount || constants.MaxUint256` applied to the optional
`BigNumberish` argument of `approve`: an omitted amount and the falsy number
zero both become the unbounded maximum; a `BigNumber` is always truthy. -/
def amountOrMax : Option BigNumberish → Nat
  | some (.num (Nat.succ n)) => Nat.succ n
  | some (.big n) => n
  | _ => maxUint256

/-- EVM `formatAddress`: `utils.zeroPad(address, 32)`, left-padding the
native address bytes with zero bytes to the canonical 32-byte value. -/
def ethFormatAddress (a : Bytes) : Bytes :=
  List.replicate (32 - a.length) 0 ++ a

/-- EVM `parseAddress`: `utils.stripZeros` drops every leading zero byte,
then `utils.getAddress` accepts exactly 20 bytes (otherwise it throws) and
returns the checksummed form, which at byte level is the identity. -/
def ethParseAddress (a : Bytes) : Except Err Bytes :=
  let stripped := a.dropWhile (· == 0)
  if stripped.length = 20 then .ok stripped else .error .invalidAddress

/-- Big-endian byte interpretation. -/
def readBE (bs : Bytes) : Nat := bs.foldl (fun acc b => acc * 256 + b) 0

/-- Modelled from the spec: the token bridge contract's `parseTransfer`
(called as `bridge.parseTransfer`; the contract itself is outside the sampled
sources). Decodes a basic transfer per the wire format of spec section 6:
payloadID 1, then amount (32 bytes), token address (32 bytes), token chain
(2 bytes), recipient (32 bytes), recipient chain (2 bytes); any other leading
discriminant is a hard error. -/
def parseTransfer (p : Bytes) : Except Err TransferPayload :=
  match p.head? with
  | some 1 =>
    if p.length = 101 then
      .ok { payloadID := 1
            amount := readBE ((p.drop 1).take 32)
            tokenAddress := (p.drop 33).take 32
            tokenChain := readBE ((p.drop 65).take 2)
            toAddress := (p.drop 67).take 32
            toChain := readBE ((p.drop 99).take 2)
            payload := [] }
    else .error .malformedPayload
  | some b => .error (.unrecognizedPayloadDiscriminant b)
  | none => .error .malformedPayload

/-- Modelled from the spec: the token bridge contract's
`parseTransferWithPayload` (the contract itself is outside the sampled
sources). Decodes a transfer-with-payload per the wire format of spec
section 6: payloadID 3, the same fixed fields as a basic transfer, then the
opaque trailing payload from offset 101; any other leading discriminant is a
hard error. -/
def parseTransferWithPayload (p : Bytes) : Except Err TransferPayload :=
  match p.head? with
  | some 3 =>
    if 101 ≤ p.length then
      .ok { payloadID := 3
            amount := readBE ((p.drop 1).take 32)
            tokenAddress := (p.drop 33).take 32
            tokenChain := readBE ((p.drop 65).take 2)
            toAddress := (p.drop 67).take 32
            toChain := readBE ((p.drop 99).take 2)
            payload := p.drop 101 }
    else .error .malformedPayload
  | some b => .error (.unrecognizedPayloadDiscriminant b)
  | none => .error .malformedPayload

/-- EthContext `getForeignAsset`: if the coalesced destination chain equals
the token's home chain, return the native address with no network query;
otherwise format the address via the home chain's context and query the
destination chain bridge's `wrappedAsset`, translating the zero address to
an absent result. -/
def getForeignAsset (env : Env) (tokenId : TokenId) (chain : ChainRef) :
    List Event × Except Err (Option Bytes) :=
  let toCid := toChainId env chain
  let chainId := env.chainIdOf tokenId.chain
  if toCid = chainId then ([], .ok (some tokenId.address))
  else
    let tokenAddr := env.formatAssetAddressOn chainId tokenId.address
    let foreignAddr := env.wrappedAssetOf toCid chainId tokenAddr
    ([.wrappedAssetQuery toCid chainId tokenAddr],
      .ok (if foreignAddr = zeroAddress then none else some foreignAddr))

/-- EthContext `mustGetForeignAsset`: same lookup, but `if (!addr) throw`,
where the JS falsiness check catches both `null` and the empty string. -/
def mustGetForeignAsset (env : Env) (tokenId : TokenId) (chain : ChainRef) :
    List Event × Except Err Bytes :=
  match getForeignAsset env tokenId chain with
  | (tr, .error e) => (tr, .error e)
  | (tr, .ok none) => (tr, .error .assetNotRegistered)
  | (tr, .ok (some a)) =>
    if a = [] then (tr, .error .assetNotRegistered) else (tr, .ok a)

/-- EthContext `approve`: require a signer, read the current allowance of the
signer for the spender, coerce the optional amount (unbounded maximum when
omitted or falsy), and submit an approval transaction only when the current
allowance is below the target, in which case the on-chain allowance is set to
the target. Returns the event trace, the updated world and the result. -/
def approve (env : Env) (w : World) (chain : ChainRef)
    (contractAddress : Bytes) (tokenAddr : Bytes)
    (amount : Option BigNumberish) :
    List Event × World × Except Err Unit :=
  let cid := toChainId env chain
  match env.signerOf cid with
  | none => ([], w, .error (.noSigner cid))
  | some senderAddress =>
    let approved := w.allowance tokenAddr senderAddress contractAddress
    let approveAmount := amountOrMax amount
    if approved < approveAmount then
      ([.allowanceQuery tokenAddr senderAddress contractAddress,
        .approveTx tokenAddr contractAddress approveAmount],
       { allowance := fun t o s =>
           if t = tokenAddr ∧ o = senderAddress ∧ s = contractAddress then
             approveAmount
           else w.allowance t o s },
       .ok ())
    else
      ([.allowanceQuery tokenAddr senderAddress contractAddress], w, .ok ())

/-- The associated-token-account resolution step at the top of `prepareSend`:
when the recipient chain is Solana (id 1), resolve the recipient's associated
token account for the transferred token (for the native sentinel, the bridge's
wrapped-native token, fetched via `bridge.WETH()`). Returns the events
performed and the account to use as recipient. -/
def solanaAccountStep (env : Env) (token : TokenArg)
    (sendingChainId : ChainId) (sendingChainName : ChainName)
    (recipientChainId : ChainId) (recipientAddress : Bytes) :
    List Event × Bytes :=
  if recipientChainId = 1 then
    match token with
    | .native =>
      let weth := env.wethAddress sendingChainId
      ([.wethQuery sendingChainId, .assocTokenAccountQuery],
       env.assocTokenAccountOf { address := weth, chain := sendingChainName }
         recipientAddress)
    | .tid t =>
      ([.assocTokenAccountQuery], env.assocTokenAccountOf t recipientAddress)
  else ([], recipientAddress)

/-- EthContext `prepareSend`: after the Solana recipient-account step, the
native path simulates `wrapAndTransferETH` via `callStatic` and only on
success constructs the populated transaction with the same arguments; the
token path resolves the sending-chain representation of the token, simulates
`transferTokens` and only on success constructs the populated transaction. -/
def prepareSend (env : Env) (token : TokenArg) (amount : Nat)
    (sendingChain : ChainRef) (senderAddress : Bytes) (recipientChain : ChainRef)
    (recipientAddress : Bytes) (relayerFee : Nat) :
    List Event × Except Err PopulatedTx :=
  let recipientChainId := toChainId env recipientChain
  let sendingChainName := toChainName env sendingChain
  let scid := toChainId env sendingChain
  let s := solanaAccountStep env token scid sendingChainName recipientChainId
    recipientAddress
  match token with
  | .native =>
    let rcpt := env.formatAddressOn recipientChainId s.2
    if env.simWrapETH then
      (s.1 ++ [.simulateWrapAndTransferETH recipientChainId rcpt relayerFee amount senderAddress,
               .populateWrapAndTransferETH recipientChainId rcpt relayerFee amount],
       .ok (.wrapAndTransferETH recipientChainId rcpt relayerFee amount))
    else
      (s.1 ++ [.simulateWrapAndTransferETH recipientChainId rcpt relayerFee amount senderAddress],
       .error .simulationFailed)
  | .tid t =>
    match mustGetForeignAsset env t sendingChain with
    | (tr1, .error e) => (s.1 ++ tr1, .error e)
    | (tr1, .ok tokenAddr) =>
      let rcpt := env.formatAddressOn recipientChainId s.2
      if env.simTransferTokens then
        (s.1 ++ tr1 ++
          [.simulateTransferTokens tokenAddr amount recipientChainId rcpt relayerFee senderAddress,
           .populateTransferTokens tokenAddr amount recipientChainId rcpt relayerFee],
         .ok (.transferTokens tokenAddr amount recipientChainId rcpt relayerFee))
      else
        (s.1 ++ tr1 ++
          [.simulateTransferTokens tokenAddr amount recipientChainId rcpt relayerFee senderAddress],
         .error .simulationFailed)

/-- EthContext `send`: require a signer for the sending chain before anything
else; for a non-native token, resolve its sending-chain representation and run
the approve step against the bridge; then prepare (and thereby simulate) the
transfer and submit the populated transaction. -/
def send (env : Env) (w : World) (token : TokenArg) (amount : Nat)
    (sendingChain : ChainRef) (senderAddress : Bytes) (recipientChain : ChainRef)
    (recipientAddress : Bytes) (relayerFee : Nat) :
    List Event × World × Except Err Unit :=
  let scid := toChainId env sendingChain
  match env.signerOf scid with
  | none => ([], w, .error (.noSigner scid))
  | some _ =>
    let step : List Event × World × Except Err Unit :=
      match token with
      | .native => ([], w, .ok ())
      | .tid t =>
        match mustGetForeignAsset env t sendingChain with
        | (tr1, .error e) => (tr1, w, .error e)
        | (tr1, .ok tokenAddr) =>
          match approve env w sendingChain (env.bridgeAddressOf scid) tokenAddr
              (some (.big amount)) with
          | (tr2, w2, r2) => (tr1 ++ tr2, w2, r2)
    match step with
    | (tr, w2, .error e) => (tr, w2, .error e)
    | (tr, w2, .ok _) =>
      match prepareSend env token amount sendingChain senderAddress recipientChain
          recipientAddress relayerFee with
      | (tr3, .error e) => (tr ++ tr3, w2, .error e)
      | (tr3, .ok tx) =>
        (tr ++ tr3 ++ [.sendTransaction tx, .waitMined], w2, .ok ())

/-- EthContext `prepareSendWithRelay`: routes through the relayer contract.
The native path constructs `wrapAndTransferEthWithRelay` with the
`toNativeTokenAmount` and the batch-opt-out sentinel 0; the token path
resolves the sending-chain token representation, re-parses it as a native
address, and constructs `transferTokensWithRelay` with the same extras.
No `callStatic` dry-run is performed on either path. -/
def prepareSendWithRelay (env : Env) (token : TokenArg) (amount : Nat)
    (toNativeToken : Nat) (sendingChain : ChainRef) (senderAddress : Bytes)
    (recipientChain : ChainRef) (recipientAddress : Bytes) :
    List Event × Except Err PopulatedTx :=
  let recipientChainId := toChainId env recipientChain
  match token with
  | .native =>
    let rcpt := env.formatAddressOn recipientChainId recipientAddress
    ([.populateWrapAndTransferEthWithRelay toNativeToken recipientChainId rcpt 0 amount],
     .ok (.wrapAndTransferEthWithRelay toNativeToken recipientChainId rcpt 0 amount))
  | .tid t =>
    match mustGetForeignAsset env t sendingChain with
    | (tr1, .error e) => (tr1, .error e)
    | (tr1, .ok tokenAddr) =>
      match ethParseAddress tokenAddr with
      | .error e => (tr1, .error e)
      | .ok parsedToken =>
        let rcpt := env.formatAddressOn recipientChainId recipientAddress
        (tr1 ++ [.populateTransferTokensWithRelay parsedToken amount toNativeToken
                   recipientChainId rcpt 0],
         .ok (.transferTokensWithRelay parsedToken amount toNativeToken
                recipientChainId rcpt 0))

/-- EthContext `sendWithRelay`: require a signer for the sending chain before
anything else; for a non-native token, resolve its sending-chain
representation and run the approve step against the relayer contract; then
prepare the relay transfer and submit the populated transaction. -/
def sendWithRelay (env : Env) (w : World) (token : TokenArg) (amount : Nat)
    (toNativeToken : Nat) (sendingChain : ChainRef) (senderAddress : Bytes)
    (recipientChain : ChainRef) (recipientAddress : Bytes) :
    List Event × World × Except Err Unit :=
  let scid := toChainId env sendingChain
  match env.signerOf scid with
  | none => ([], w, .error (.noSigner scid))
  | some _ =>
    let step : List Event × World × Except Err Unit :=
      match token with
      | .native => ([], w, .ok ())
      | .tid t =>
        match mustGetForeignAsset env t sendingChain with
        | (tr1, .error e) => (tr1, w, .error e)
        | (tr1, .ok tokenAddr) =>
          match approve env w sendingChain (env.relayerAddressOf scid) tokenAddr
              (some (.big amount)) with
          | (tr2, w2, r2) => (tr1 ++ tr2, w2, r2)
    match step with
    | (tr, w2, .error e) => (tr, w2, .error e)
    | (tr, w2, .ok _) =>
      match prepareSendWithRelay env token amount toNativeToken sendingChain
          senderAddress recipientChain recipientAddress with
      | (tr3, .error e) => (tr ++ tr3, w2, .error e)
      | (tr3, .ok tx) =>
        (tr ++ tr3 ++ [.sendTransaction tx, .waitMined], w2, .ok ())

/-- EthContext `prepareRedeem`: simulate `completeTransfer` on the signed
attestation via `callStatic`, and only on success construct the populated
redeem transaction with the same attestation. -/
def prepareRedeem (env : Env) (vaa : Bytes) :
    List Event × Except Err PopulatedTx :=
  if env.simCompleteTransfer then
    ([.simulateCompleteTransfer vaa, .populateCompleteTransfer vaa],
     .ok (.completeTransfer vaa))
  else ([.simulateCompleteTransfer vaa], .error .simulationFailed)

/-- EthContext `redeem`: require a signer for the destination chain before
anything else, then prepare (and thereby simulate) the redeem and submit the
populated transaction. -/
def redeem (env : Env) (destChain : ChainRef) (vaa : Bytes) :
    List Event × Except Err Unit :=
  let cid := toChainId env destChain
  match env.signerOf cid with
  | none => ([], .error (.noSigner cid))
  | some _ =>
    match prepareRedeem env vaa with
    | (tr, .error e) => (tr, .error e)
    | (tr, .ok tx) => (tr ++ [.sendTransaction tx, .waitMined], .ok ())

/-- Decoding of one bridge log inside `parseMessageFromTx`: branch on whether
the payload starts with discriminant byte 1; if so decode a basic transfer and
translate its addresses through the token's home-chain and the destination
chain's codecs; otherwise decode a transfer-with-payload, ask the destination
chain's context for the relayer sub-payload, and build the relayer message. -/
def parseBridgeLog (env : Env) (tx : String) (fromChain : ChainName)
    (sender : Bytes) (blockNumber : Nat) (gasFee : Option Nat)
    (bridgeAddr : Bytes) (log : TxLog) : Except Err AnyMessage :=
  if log.payload.head? = some 1 then
    match parseTransfer log.payload with
    | .error e => .error e
    | .ok pt =>
      match env.parseAssetAddressOn pt.tokenChain pt.tokenAddress with
      | .error e => .error e
      | .ok tokenAddress =>
        let tokenChain := env.chainNameOf pt.tokenChain
        match env.parseAddressOn pt.toChain pt.toAddress with
        | .error e => .error e
        | .ok recipient =>
          .ok (.basic
            { sendTx := tx
              sender := sender
              amount := pt.amount
              payloadID := pt.payloadID
              recipient := recipient
              toChain := env.chainNameOf pt.toChain
              fromChain := fromChain
              tokenAddress := tokenAddress
              tokenChain := tokenChain
              tokenId := { chain := tokenChain, address := tokenAddress }
              sequence := log.sequence
              emitterAddress := ethFormatAddress bridgeAddr
              block := blockNumber
              gasFee := gasFee })
  else
    match parseTransferWithPayload log.payload with
    | .error e => .error e
    | .ok pt =>
      match env.parseRelayerPayloadOn pt.toChain pt.payload with
      | .error e => .error e
      | .ok relayerPayload =>
        match env.parseAssetAddressOn pt.tokenChain pt.tokenAddress with
        | .error e => .error e
        | .ok tokenAddress =>
          let tokenChain := env.chainNameOf pt.tokenChain
          match env.parseAddressOn pt.toChain pt.toAddress with
          | .error e => .error e
          | .ok toParsed =>
            match env.parseAddressOn pt.toChain relayerPayload.toAddress with
            | .error e => .error e
            | .ok recipient =>
              .ok (.relayer
                { sendTx := tx
                  sender := sender
                  amount := pt.amount
                  payloadID := pt.payloadID
                  toAddress := toParsed
                  toChain := env.chainNameOf pt.toChain
                  fromChain := fromChain
                  tokenAddress := tokenAddress
                  tokenChain := tokenChain
                  tokenId := { chain := tokenChain, address := tokenAddress }
                  sequence := log.sequence
                  emitterAddress := ethFormatAddress bridgeAddr
                  block := blockNumber
                  gasFee := gasFee
                  payload := pt.payload
                  relayerPayloadId := relayerPayload.relayerPayloadId
                  recipient := recipient
                  relayerFee := relayerPayload.relayerFee
                  toNativeTokenAmount := relayerPayload.toNativeTokenAmount })

/-- Sequential decoding of independent items, failing on the first error
(the `Promise.all` over the mapped log decodings). -/
def mapExcept (f : α → Except Err β) : List α → Except Err (List β)
  | [] => .ok []
  | a :: l =>
    match f a with
    | .error e => .error e
    | .ok b =>
      match mapExcept f l with
      | .error e => .error e
      | .ok bs => .ok (b :: bs)

/-- Gas fee actually paid, per the receipt: `gasUsed × effectiveGasPrice` when
both fields are present, absent otherwise. -/
def receiptGasFee (receipt : Receipt) : Option Nat :=
  match receipt.gasUsed, receipt.effectiveGasPrice with
  | some g, some p => some (g * p)
  | _, _ => none

/-- EthContext `parseMessageFromTx`: fetch the receipt (a missing receipt is
an error), compute the gas fee when both receipt fields are present, filter
the logs to those emitted by the core messaging contract, and decode each in
order. -/
def parseMessageFromTx (env : Env) (tx : String) (chain : ChainRef) :
    Except Err (List AnyMessage) :=
  let cid := toChainId env chain
  match env.receiptOf cid tx with
  | none => .error .noReceipt
  | some receipt =>
    let gasFee := receiptGasFee receipt
    let core := env.coreAddressOf cid
    let bridgeAddr := env.bridgeAddressOf cid
    let fromChain := toChainName env chain
    mapExcept
      (parseBridgeLog env tx fromChain receipt.fromAddress receipt.blockNumber
        gasFee bridgeAddr)
      (receipt.logs.filter (fun l => l.address = core))

/-- Classifier for dry-run (`callStatic`) events. -/
def isSimulate : Event → Bool
  | .simulateWrapAndTransferETH .. => true
  | .simulateTransferTokens .. => true
  | .simulateCompleteTransfer .. => true
  | _ => false

/-- Classifier for transaction-construction (`populateTransaction`) events. -/
def isPopulate : Event → Bool
  | .populateWrapAndTransferETH .. => true
  | .populateTransferTokens .. => true
  | .populateCompleteTransfer .. => true
  | .populateWrapAndTransferEthWithRelay .. => true
  | .populateTransferTokensWithRelay .. => true
  | _ => false

/-- Classifier for on-chain approval transactions. -/
def isApproveTx : Event → Bool
  | .approveTx .. => true
  | _ => false

/-- Number of on-chain approval transactions in a trace. -/
def countApprove (tr : List Event) : Nat := (tr.filter isApproveTx).length

/-! ## Concrete fixtures used to exercise the operations -/

/-- A world with every allowance at zero. -/
def wZero : World := ⟨fun _ _ _ => 0⟩

/-- A well-formed basic transfer payload: discriminant 1, amount 7, token
chain 2, recipient chain 1 (101 bytes in total). -/
def pay1 : Bytes :=
  [1] ++ List.replicate 31 0 ++ [7] ++ List.replicate 32 0 ++ [0, 2] ++
    List.replicate 32 0 ++ [0, 1]

/-- A log of the core messaging contract carrying `pay1`. -/
def log1 : TxLog := { address := [], payload := pay1, sequence := 5 }

/-- A log whose payload starts with the unrecognized discriminant 2. -/
def log2 : TxLog := { address := [], payload := [2], sequence := 0 }

/-- A receipt with both gas fields present and one bridge log. -/
def receipt1 : Receipt :=
  { fromAddress := [1], gasUsed := some 21000, effectiveGasPrice := some 3,
    blockNumber := 3, logs := [log1] }

/-- A concrete environment: every chain name coalesces to id 2, a signer is
configured everywhere, simulations succeed, and the provider returns
`receipt1`. -/
def testEnv : Env :=
  { chainIdOf := fun _ => 2
    chainNameOf := fun i => if i = 2 then "ethereum" else
      if i = 1 then "solana" else "c"
    signerOf := fun _ => some [1]
    bridgeAddressOf := fun _ => []
    coreAddressOf := fun _ => []
    relayerAddressOf := fun _ => [12]
    wrappedAssetOf := fun _ _ _ => 2 :: List.replicate 19 0
    formatAssetAddressOn := fun _ a => a
    parseAssetAddressOn := fun _ _ => .ok [9]
    formatAddressOn := fun _ a => a
    parseAddressOn := fun _ _ => .ok [8]
    parseRelayerPayloadOn := fun _ _ => .ok ⟨1, [4], 0, 0⟩
    wethAddress := fun _ => [7]
    assocTokenAccountOf := fun _ _ => [6]
    simWrapETH := true
    simTransferTokens := true
    simCompleteTransfer := true
    receiptOf := fun _ _ => some receipt1 }

/-- `testEnv` with a bridge whose wrapped-asset query yields the zero
address (the asset was never registered). -/
def envZeroWrapped : Env := { testEnv with wrappedAssetOf := fun _ _ _ => zeroAddress }

/-- `testEnv` with no signer configured on any chain. -/
def envNoSigner : Env := { testEnv with signerOf := fun _ => none }

/-- The message that `parseMessageFromTx testEnv "t" (Sum.inr 2)` decodes
from `receipt1`. -/
def c9msg : AnyMessage :=
  AnyMessage.basic
    { sendTx := "t", sender := [1], amount := 7, payloadID := 1,
      recipient := [8], toChain := "solana", fromChain := "ethereum",
      tokenAddress := [9], tokenChain := "ethereum",
      tokenId := ⟨"ethereum", [9]⟩, sequence := 5,
      emitterAddress := List.replicate 32 0, block := 3, gasFee := some 63000 }

/-! ## Helper lemmas -/

instance {ε α : Type} [DecidableEq ε] [DecidableEq α] :
    DecidableEq (Except ε α) := fun a b =>
  match a, b with
  | .error e, .error f => decidable_of_iff (e = f) (by simp)
  | .error _, .ok _ => isFalse (by simp)
  | .ok _, .error _ => isFalse (by simp)
  | .ok a, .ok b => decidable_of_iff (a = b) (by simp)

lemma dropWhile_zero_replicate (n : Nat) (l : Bytes) :
    List.dropWhile (· == 0) (List.replicate n 0 ++ l) =
      List.dropWhile (· == 0) l := by
  induction n with
  | zero => simp
  | succ k ih => simp [List.replicate_succ, List.dropWhile_cons, ih]

/-! ## Claim theorems -/

/-- C2: for every `TokenId` and chain, if the chain coalesces to the token's
home chain, `getForeignAsset` returns the token's address unchanged with an
empty event trace (zero network queries); otherwise it performs exactly one
query, of the destination chain bridge's wrapped-asset mapping for the token's
home-chain representation. -/
theorem c2_home_chain_short_circuit (env : Env) (t : TokenId) (chain : ChainRef) :
    (toChainId env chain = env.chainIdOf t.chain →
      getForeignAsset env t chain = ([], .ok (some t.address))) ∧
    (toChainId env chain ≠ env.chainIdOf t.chain →
      (getForeignAsset env t chain).1 =
        [.wrappedAssetQuery (toChainId env chain) (env.chainIdOf t.chain)
          (env.formatAssetAddressOn (env.chainIdOf t.chain) t.address)]) := by
  constructor <;> intro h <;> simp [getForeignAsset, h]

/-- C3: for every `TokenId` and chain such that the chain is not the token's
home chain and the bridge query yields the zero address (the asset was never
bridged there), `getForeignAsset` returns an absent value (not an error) and
`mustGetForeignAsset` fails with the asset-not-registered error; and whenever
`getForeignAsset` returns a (nonempty) address, `mustGetForeignAsset` returns
that same address. -/
theorem c3_unregistered_asset (env : Env) (t : TokenId) (chain : ChainRef)
    (h1 : toChainId env chain ≠ env.chainIdOf t.chain)
    (h2 : env.wrappedAssetOf (toChainId env chain) (env.chainIdOf t.chain)
      (env.formatAssetAddressOn (env.chainIdOf t.chain) t.address) = zeroAddress) :
    (getForeignAsset env t chain).2 = .ok none ∧
    (mustGetForeignAsset env t chain).2 = .error .assetNotRegistered ∧
    (∀ (env2 : Env) (t2 : TokenId) (chain2 : ChainRef) (a : Bytes),
      (getForeignAsset env2 t2 chain2).2 = .ok (some a) → a ≠ [] →
      (mustGetForeignAsset env2 t2 chain2).2 = .ok a) := by
  refine ⟨?_, ?_, ?_⟩
  · simp [getForeignAsset, h1, h2]
  · simp [mustGetForeignAsset, getForeignAsset, h1, h2]
  · intro env2 t2 chain2 a hg ha
    rcases hga : getForeignAsset env2 t2 chain2 with ⟨tr, r⟩
    rw [hga] at hg
    simp only at hg
    subst hg
    simp [mustGetForeignAsset, hga, ha]

/-- C8 (counterexample): the address round-trip fails as stated: for the
20-byte native address starting with a zero byte, `parseAddress ∘
formatAddress` does not return the original address (stripping leading zero
bytes also strips the address's own first byte, leaving 19 bytes, which the
address validation rejects). -/
theorem c8_roundtrip_counterexample :
    (0 :: List.replicate 19 1 : Bytes).length = 20 ∧
    ethParseAddress (ethFormatAddress (0 :: List.replicate 19 1)) ≠
      .ok (0 :: List.replicate 19 1) ∧
    ethParseAddress (ethFormatAddress (0 :: List.replicate 19 1)) =
      .error .invalidAddress := by decide

/-- C8 (amended): for every 20-byte native EVM address whose first byte is
nonzero, `parseAddress (formatAddress a) = a`: format left-pads with zero
bytes to 32, parse strips exactly those padding bytes and validates the
remaining 20 bytes back to the original address. -/
theorem c8_address_roundtrip_amended (a : Bytes) (hlen : a.length = 20)
    (hhd : a.head? ≠ some 0) :
    ethParseAddress (ethFormatAddress a) = .ok a := by
  cases a with
  | nil => simp at hlen
  | cons b t =>
    have hb : ¬(b = 0) := by
      intro h
      exact hhd (by simp [h])
    simp [ethFormatAddress, ethParseAddress, dropWhile_zero_replicate,
      List.dropWhile_cons, hb, hlen]

/-- C10: passing the JS number zero as the amount to `approve` behaves
identically to omitting the amount: the whole call is the same function of
the world, the approval target becomes the unbounded maximum, and an approval
transaction for the unbounded maximum is submitted exactly when the current
allowance is below it — the zero amount is never the approval target. -/
theorem c10_zero_amount_unbounded (env : Env) (w : World) (chain : ChainRef)
    (contractAddress tokenAddr : Bytes) :
    approve env w chain contractAddress tokenAddr (some (.num 0)) =
      approve env w chain contractAddress tokenAddr none ∧
    (∀ sender, env.signerOf (toChainId env chain) = some sender →
      (approve env w chain contractAddress tokenAddr (some (.num 0))).1.filter
          isApproveTx =
        if w.allowance tokenAddr sender contractAddress < maxUint256 then
          [.approveTx tokenAddr contractAddress maxUint256]
        else []) := by
  constructor
  · rfl
  · intro sender hs
    have ha : amountOrMax (some (.num 0)) = maxUint256 := rfl
    simp only [approve, ha, hs]
    split <;> rename_i hc <;> simp [isApproveTx, List.filter, hc]

/-- C4: `approve` reads the current allowance before any write (the allowance
query is the first event of its trace), submits an on-chain approval exactly
when the current allowance is below the coalesced target, succeeds, and a
second call with the same target after the first submits zero additional
approvals; so when the first call had to approve, the two-call sequence
contains exactly one approval transaction. -/
theorem c4_approve_idempotent (env : Env) (w : World) (chain : ChainRef)
    (contractAddress tokenAddr : Bytes) (amount : Option BigNumberish)
    (sender : Bytes)
    (hs : env.signerOf (toChainId env chain) = some sender) :
    ((approve env w chain contractAddress tokenAddr amount).1.head? =
      some (.allowanceQuery tokenAddr sender contractAddress)) ∧
    (countApprove (approve env w chain contractAddress tokenAddr amount).1 =
      if w.allowance tokenAddr sender contractAddress < amountOrMax amount
      then 1 else 0) ∧
    ((approve env w chain contractAddress tokenAddr amount).2.2 = .ok ()) ∧
    (countApprove (approve env
        (approve env w chain contractAddress tokenAddr amount).2.1
        chain contractAddress tokenAddr amount).1 = 0) ∧
    (w.allowance tokenAddr sender contractAddress < amountOrMax amount →
      countApprove ((approve env w chain contractAddress tokenAddr amount).1 ++
        (approve env
          (approve env w chain contractAddress tokenAddr amount).2.1
          chain contractAddress tokenAddr amount).1) = 1) := by
  by_cases h : w.allowance tokenAddr sender contractAddress < amountOrMax amount
  · simp [approve, hs, h, countApprove, isApproveTx, List.filter]
  · simp [approve, hs, h, countApprove, isApproveTx, List.filter]

/-- C7: for each of `send`, `sendWithRelay` and `redeem`, when no signer is
configured for the relevant chain the operation fails with the no-signer
error and an empty event trace — no network call of any kind happens first. -/
theorem c7_no_signer_before_network (env : Env) (w : World) (token : TokenArg)
    (amount toNativeToken : Nat) (sendingChain : ChainRef)
    (senderAddress : Bytes) (recipientChain : ChainRef)
    (recipientAddress : Bytes) (relayerFee : Nat) (destChain : ChainRef)
    (vaa : Bytes) :
    (env.signerOf (toChainId env sendingChain) = none →
      send env w token amount sendingChain senderAddress recipientChain
          recipientAddress relayerFee =
        ([], w, .error (.noSigner (toChainId env sendingChain))) ∧
      sendWithRelay env w token amount toNativeToken sendingChain senderAddress
          recipientChain recipientAddress =
        ([], w, .error (.noSigner (toChainId env sendingChain)))) ∧
    (env.signerOf (toChainId env destChain) = none →
      redeem env destChain vaa =
        ([], .error (.noSigner (toChainId env destChain)))) := by
  constructor
  · intro h
    constructor <;> simp [send, sendWithRelay, h]
  · intro h
    simp [redeem, h]

lemma parseTransfer_head (p : Bytes) (pt : TransferPayload) :
    parseTransfer p = .ok pt → p.head? = some 1 := by
  intro h
  unfold parseTransfer at h
  cases hh : p.head? with
  | none => rw [hh] at h; simp at h
  | some b =>
    rw [hh] at h
    cases b with
    | zero => simp at h
    | succ b1 =>
      cases b1 with
      | zero => rfl
      | succ b2 => simp at h

lemma parseTransferWithPayload_head (p : Bytes) (pt : TransferPayload) :
    parseTransferWithPayload p = .ok pt → p.head? = some 3 := by
  intro h
  unfold parseTransferWithPayload at h
  cases hh : p.head? with
  | none => rw [hh] at h; simp at h
  | some b =>
    rw [hh] at h
    cases b with
    | zero => simp at h
    | succ b1 =>
      cases b1 with
      | zero => simp at h
      | succ b2 =>
        cases b2 with
        | zero => simp at h
        | succ b3 =>
          cases b3 with
          | zero => rfl
          | succ b4 => simp at h

lemma parseTransferWithPayload_unrecognized (p : Bytes) (b : Nat)
    (hb : p.head? = some b) (h3 : b ≠ 3) :
    parseTransferWithPayload p = .error (.unrecognizedPayloadDiscriminant b) := by
  unfold parseTransferWithPayload
  rw [hb]
  cases b with
  | zero => rfl
  | succ b1 =>
    cases b1 with
    | zero => rfl
    | succ b2 =>
      cases b2 with
      | zero => rfl
      | succ b3 =>
        cases b3 with
        | zero => exact absurd rfl h3
        | succ b4 => rfl

/-- C1: decoding one bridge log branches on payload byte 0 before anything
else: a discriminant other than 1 and 3 always fails with the
unrecognized-discriminant error for that byte (it is never decoded as a
compatible shape), a successful decode into a basic transfer happens only for
discriminant 1, and a successful decode into a transfer-with-payload happens
only for discriminant 3; decoding is a function into a sum of success and
error, so it never yields both a result and an absence. -/
theorem c1_payload_discriminant (env : Env) (tx : String)
    (fromChain : ChainName) (sender : Bytes) (blockNumber : Nat)
    (gasFee : Option Nat) (bridgeAddr : Bytes) (log : TxLog) :
    (∀ b, log.payload.head? = some b → b ≠ 1 → b ≠ 3 →
      parseBridgeLog env tx fromChain sender blockNumber gasFee bridgeAddr log
        = .error (.unrecognizedPayloadDiscriminant b)) ∧
    (∀ m, parseBridgeLog env tx fromChain sender blockNumber gasFee bridgeAddr
        log = .ok (.basic m) → log.payload.head? = some 1) ∧
    (∀ m, parseBridgeLog env tx fromChain sender blockNumber gasFee bridgeAddr
        log = .ok (.relayer m) → log.payload.head? = some 3) := by
  refine ⟨?_, ?_, ?_⟩
  · intro b hb h1 h3
    have hcond : ¬(log.payload.head? = some 1) := by
      rw [hb]; simp; exact h1
    rw [parseBridgeLog, if_neg hcond,
      parseTransferWithPayload_unrecognized log.payload b hb h3]
  · intro m h
    by_cases hc : log.payload.head? = some 1
    · exact hc
    · rw [parseBridgeLog, if_neg hc] at h
      exfalso
      repeat' split at h
      all_goals simp at h
  · intro m h
    by_cases hc : log.payload.head? = some 1
    · exfalso
      rw [parseBridgeLog, if_pos hc] at h
      repeat' split at h
      all_goals simp at h
    · rw [parseBridgeLog, if_neg hc] at h
      rcases h1 : parseTransferWithPayload log.payload with e | pt
      · rw [h1] at h
        repeat' split at h
        all_goals simp_all
      · exact parseTransferWithPayload_head log.payload pt h1

lemma parseBridgeLog_gasFee (env : Env) (tx : String) (fromChain : ChainName)
    (sender : Bytes) (blockNumber : Nat) (gasFee : Option Nat)
    (bridgeAddr : Bytes) (log : TxLog) (m : AnyMessage) :
    parseBridgeLog env tx fromChain sender blockNumber gasFee bridgeAddr log
      = .ok m → m.gasFee = gasFee := by
  intro h
  unfold parseBridgeLog at h
  repeat' split at h
  all_goals
    first
      | (rw [← Except.ok.inj h]; rfl)
      | simp at h

lemma mapExcept_ok_mem {α β : Type} (f : α → Except Err β) (l : List α)
    (bs : List β) :
    mapExcept f l = .ok bs → ∀ b ∈ bs, ∃ a ∈ l, f a = .ok b := by
  induction l generalizing bs with
  | nil =>
    intro h
    unfold mapExcept at h
    simp only [Except.ok.injEq] at h
    subst h
    simp
  | cons a l ih =>
    intro h b hb
    unfold mapExcept at h
    cases hfa : f a with
    | error e => rw [hfa] at h; simp at h
    | ok b0 =>
      rw [hfa] at h
      cases hml : mapExcept f l with
      | error e => rw [hml] at h; simp at h
      | ok bs0 =>
        rw [hml] at h
        simp only [Except.ok.injEq] at h
        subst h
        rcases List.mem_cons.mp hb with hb0 | hbs
        · exact ⟨a, List.mem_cons_self a l, hb0 ▸ hfa⟩
        · obtain ⟨a2, ha2, hfa2⟩ := ih bs0 hml b hbs
          exact ⟨a2, List.mem_cons_of_mem a ha2, hfa2⟩

/-- C9: whenever `parseMessageFromTx` succeeds against a fetched receipt,
every parsed message carries the gas fee `gasUsed * effectiveGasPrice` when
both receipt fields are present, and an absent gas fee when either is
missing — never an estimated or defaulted value. -/
theorem c9_gas_fee (env : Env) (tx : String) (chain : ChainRef)
    (receipt : Receipt) (msgs : List AnyMessage)
    (hr : env.receiptOf (toChainId env chain) tx = some receipt)
    (hp : parseMessageFromTx env tx chain = .ok msgs) :
    ∀ m ∈ msgs, m.gasFee = receiptGasFee receipt := by
  simp only [parseMessageFromTx, hr] at hp
  intro m hm
  obtain ⟨lg, hlg, hok⟩ := mapExcept_ok_mem _ _ _ hp m hm
  exact parseBridgeLog_gasFee env tx (toChainName env chain)
    receipt.fromAddress receipt.blockNumber (receiptGasFee receipt)
    (env.bridgeAddressOf (toChainId env chain)) lg m hok

lemma drop_last_two (l : List Event) (a b : Event) :
    (l ++ [a, b]).drop ((l ++ [a, b]).length - 2) = [a, b] := by
  have h : (l ++ [a, b]).length - 2 = l.length := by simp
  rw [h, List.drop_left]

lemma solanaStep_no_populate (env : Env) (token : TokenArg) (scid : ChainId)
    (scn : ChainName) (rcid : ChainId) (ra : Bytes) :
    ((solanaAccountStep env token scid scn rcid ra).1).filter isPopulate
      = [] := by
  rcases token with _ | t <;> by_cases h : rcid = 1 <;>
    simp [solanaAccountStep, h, isPopulate]

lemma mustGet_no_populate (env : Env) (t : TokenId) (chain : ChainRef) :
    ((mustGetForeignAsset env t chain).1).filter isPopulate = [] := by
  rcases hg : getForeignAsset env t chain with ⟨tr, r⟩
  have htr : tr.filter isPopulate = [] := by
    unfold getForeignAsset at hg
    by_cases h : toChainId env chain = env.chainIdOf t.chain
    · simp [h] at hg
      rw [hg.1]
      simp
    · simp [h] at hg
      rw [← hg.1]
      simp [isPopulate]
  simp only [mustGetForeignAsset, hg]
  rcases r with e | o
  · simpa using htr
  · rcases o with _ | a
    · simpa using htr
    · by_cases ha : a = [] <;> simp [ha, htr]

/-- C5: in every `prepareSend` invocation — the native wrap-and-transfer path
and the token path alike — a successful construction of the populated
transaction is immediately preceded in the event trace by a dry-run
simulation with the same transfer parameters, and a failed invocation never
constructs a transaction; likewise every `prepareRedeem` invocation simulates
the completion call on the signed attestation before constructing the redeem
transaction, and constructs nothing on failure. -/
theorem c5_simulation_precedes_construction (env : Env) (token : TokenArg)
    (amount : Nat) (sendingChain : ChainRef) (senderAddress : Bytes)
    (recipientChain : ChainRef) (recipientAddress : Bytes) (relayerFee : Nat)
    (vaa : Bytes) :
    (∀ cId rcpt fee val,
      (prepareSend env token amount sendingChain senderAddress recipientChain
          recipientAddress relayerFee).2 =
        .ok (.wrapAndTransferETH cId rcpt fee val) →
      ((prepareSend env token amount sendingChain senderAddress recipientChain
          recipientAddress relayerFee).1).drop
        (((prepareSend env token amount sendingChain senderAddress
            recipientChain recipientAddress relayerFee).1).length - 2) =
        [.simulateWrapAndTransferETH cId rcpt fee val senderAddress,
         .populateWrapAndTransferETH cId rcpt fee val]) ∧
    (∀ tok amt cId rcpt fee,
      (prepareSend env token amount sendingChain senderAddress recipientChain
          recipientAddress relayerFee).2 =
        .ok (.transferTokens tok amt cId rcpt fee) →
      ((prepareSend env token amount sendingChain senderAddress recipientChain
          recipientAddress relayerFee).1).drop
        (((prepareSend env token amount sendingChain senderAddress
            recipientChain recipientAddress relayerFee).1).length - 2) =
        [.simulateTransferTokens tok amt cId rcpt fee senderAddress,
         .populateTransferTokens tok amt cId rcpt fee]) ∧
    (∀ e,
      (prepareSend env token amount sendingChain senderAddress recipientChain
          recipientAddress relayerFee).2 = .error e →
      ((prepareSend env token amount sendingChain senderAddress recipientChain
          recipientAddress relayerFee).1).filter isPopulate = []) ∧
    (∀ v, (prepareRedeem env vaa).2 = .ok (.completeTransfer v) →
      (prepareRedeem env vaa).1 =
        [.simulateCompleteTransfer v, .populateCompleteTransfer v]) ∧
    (∀ e, (prepareRedeem env vaa).2 = .error e →
      ((prepareRedeem env vaa).1).filter isPopulate = []) := by
  refine ⟨?_, ?_, ?_, ?_, ?_⟩
  · intro cId rcpt fee val h
    rcases token with _ | t
    · by_cases hw : env.simWrapETH
      · simp only [prepareSend, hw, if_true] at h ⊢
        simp only [Except.ok.injEq, PopulatedTx.wrapAndTransferETH.injEq] at h
        obtain ⟨h1, h2, h3, h4⟩ := h
        subst h1; subst h2; subst h3; subst h4
        exact drop_last_two _ _ _
      · simp only [prepareSend, hw, if_false] at h
        simp at h
    · rcases hm : mustGetForeignAsset env t sendingChain with ⟨tr1, r1⟩
      rcases r1 with e | ta
      · simp only [prepareSend, hm] at h
        simp at h
      · by_cases hw : env.simTransferTokens <;>
          simp only [prepareSend, hm, hw, if_true, if_false] at h <;>
          simp at h
  · intro tok amt cId rcpt fee h
    rcases token with _ | t
    · by_cases hw : env.simWrapETH <;>
        simp only [prepareSend, hw, if_true, if_false] at h <;>
        simp at h
    · rcases hm : mustGetForeignAsset env t sendingChain with ⟨tr1, r1⟩
      rcases r1 with e | ta
      · simp only [prepareSend, hm] at h
        simp at h
      · by_cases hw : env.simTransferTokens
        · simp only [prepareSend, hm, hw, if_true] at h ⊢
          simp only [Except.ok.injEq, PopulatedTx.transferTokens.injEq] at h
          obtain ⟨h1, h2, h3, h4, h5⟩ := h
          subst h1; subst h2; subst h3; subst h4; subst h5
          exact drop_last_two _ _ _
        · simp only [prepareSend, hm, hw, if_false] at h
          simp at h
  · intro e h
    rcases token with _ | t
    · by_cases hw : env.simWrapETH
      · simp only [prepareSend, hw, if_true] at h
        simp at h
      · simp only [prepareSend, hw, if_false] at h ⊢
        simp [List.filter_append, solanaStep_no_populate, isPopulate]
    · rcases hm : mustGetForeignAsset env t sendingChain with ⟨tr1, r1⟩
      have htr1 : tr1.filter isPopulate = [] := by
        have := mustGet_no_populate env t sendingChain
        rw [hm] at this
        simpa using this
      rcases r1 with e2 | ta
      · simp only [prepareSend, hm] at h ⊢
        simp [List.filter_append, solanaStep_no_populate, htr1]
      · by_cases hw : env.simTransferTokens
        · simp only [prepareSend, hm, hw, if_true] at h
          simp at h
        · simp only [prepareSend, hm, hw, if_false] at h ⊢
          simp [List.filter_append, solanaStep_no_populate, htr1, isPopulate]
  · intro v h
    by_cases hc : env.simCompleteTransfer <;>
      simp only [prepareRedeem, hc, if_true, if_false] at h ⊢ <;>
      simp_all
  · intro e h
    by_cases hc : env.simCompleteTransfer <;>
      simp only [prepareRedeem, hc, if_true, if_false] at h ⊢ <;>
      simp_all [isPopulate]

/-- C6: at a fully configured environment, a successful `sendWithRelay` for
an ERC-20 token submits the relay transaction — which does carry the
`toNativeTokenAmount` (here 7) and the no-batching sentinel 0 — but its event
trace contains no dry-run simulation of any kind, contradicting the claimed
(and source-commented, "prepare and simulate transfer") simulate-before-submit
ordering of the relay path. -/
theorem c6_sendWithRelay_no_dry_run :
    ((sendWithRelay testEnv wZero (.tid ⟨"x", 3 :: List.replicate 19 0⟩) 100 7
        (Sum.inr 2) [1] (Sum.inr 4) [2]).1.filter isSimulate = []) ∧
    (Event.sendTransaction
        (.transferTokensWithRelay (3 :: List.replicate 19 0) 100 7 4 [2] 0) ∈
      (sendWithRelay testEnv wZero (.tid ⟨"x", 3 :: List.replicate 19 0⟩) 100 7
        (Sum.inr 2) [1] (Sum.inr 4) [2]).1) ∧
    ((sendWithRelay testEnv wZero (.tid ⟨"x", 3 :: List.replicate 19 0⟩) 100 7
        (Sum.inr 2) [1] (Sum.inr 4) [2]).2.2 = .ok ()) := by
  refine ⟨rfl, ?_, rfl⟩
  simp [sendWithRelay, prepareSendWithRelay, mustGetForeignAsset,
    getForeignAsset, approve, testEnv, wZero, amountOrMax, ethParseAddress,
    toChainId]

/-! ## Witnesses -/

theorem c1_witness :
    parseBridgeLog testEnv "t" "ethereum" [1] 0 none [] log2 =
      .error (.unrecognizedPayloadDiscriminant 2) :=
  (c1_payload_discriminant testEnv "t" "ethereum" [1] 0 none [] log2).1 2 rfl
    (by decide) (by decide)

theorem c2_witness :
    getForeignAsset testEnv ⟨"ethereum", [3]⟩ (Sum.inr 2) =
      ([], .ok (some [3])) :=
  (c2_home_chain_short_circuit testEnv ⟨"ethereum", [3]⟩ (Sum.inr 2)).1 rfl

theorem c3_witness :
    (getForeignAsset envZeroWrapped ⟨"x", [3]⟩ (Sum.inr 4)).2 = .ok none ∧
    (mustGetForeignAsset envZeroWrapped ⟨"x", [3]⟩ (Sum.inr 4)).2 =
      .error .assetNotRegistered :=
  ⟨(c3_unregistered_asset envZeroWrapped ⟨"x", [3]⟩ (Sum.inr 4) (by decide)
      rfl).1,
   (c3_unregistered_asset envZeroWrapped ⟨"x", [3]⟩ (Sum.inr 4) (by decide)
      rfl).2.1⟩

theorem c4_witness :
    ((approve testEnv wZero (Sum.inr 2) [12] [13] (some (.big 500))).1.head? =
      some (.allowanceQuery [13] [1] [12])) ∧
    countApprove
      ((approve testEnv wZero (Sum.inr 2) [12] [13] (some (.big 500))).1 ++
       (approve testEnv
         (approve testEnv wZero (Sum.inr 2) [12] [13] (some (.big 500))).2.1
         (Sum.inr 2) [12] [13] (some (.big 500))).1) = 1 :=
  ⟨(c4_approve_idempotent testEnv wZero (Sum.inr 2) [12] [13]
      (some (.big 500)) [1] rfl).1,
   (c4_approve_idempotent testEnv wZero (Sum.inr 2) [12] [13]
      (some (.big 500)) [1] rfl).2.2.2.2 (by decide)⟩

theorem c5_witness :
    ((prepareSend testEnv .native 5 (Sum.inr 2) [1] (Sum.inr 4) [2] 0).1).drop
      (((prepareSend testEnv .native 5 (Sum.inr 2) [1] (Sum.inr 4) [2]
          0).1).length - 2) =
      [.simulateWrapAndTransferETH 4 [2] 0 5 [1],
       .populateWrapAndTransferETH 4 [2] 0 5] ∧
    (prepareRedeem testEnv [9]).1 =
      [.simulateCompleteTransfer [9], .populateCompleteTransfer [9]] :=
  ⟨(c5_simulation_precedes_construction testEnv .native 5 (Sum.inr 2) [1]
      (Sum.inr 4) [2] 0 [9]).1 4 [2] 0 5 rfl,
   (c5_simulation_precedes_construction testEnv .native 5 (Sum.inr 2) [1]
      (Sum.inr 4) [2] 0 [9]).2.2.2.1 [9] rfl⟩

theorem c7_witness :
    send envNoSigner wZero .native 5 (Sum.inr 2) [1] (Sum.inr 4) [2] 0 =
      ([], wZero, .error (.noSigner 2)) ∧
    redeem envNoSigner (Sum.inr 4) [9] = ([], .error (.noSigner 4)) :=
  ⟨((c7_no_signer_before_network envNoSigner wZero .native 5 7 (Sum.inr 2) [1]
      (Sum.inr 4) [2] 0 (Sum.inr 4) [9]).1 rfl).1,
   (c7_no_signer_before_network envNoSigner wZero .native 5 7 (Sum.inr 2) [1]
      (Sum.inr 4) [2] 0 (Sum.inr 4) [9]).2 rfl⟩

theorem c8_witness :
    (1 :: List.replicate 19 0 : Bytes).length = 20 ∧
    ethParseAddress (ethFormatAddress (1 :: List.replicate 19 0)) =
      .ok (1 :: List.replicate 19 0) :=
  ⟨by decide,
   c8_address_roundtrip_amended (1 :: List.replicate 19 0) (by decide)
     (by decide)⟩

theorem c9_witness : AnyMessage.gasFee c9msg = receiptGasFee receipt1 :=
  c9_gas_fee testEnv "t" (Sum.inr 2) receipt1 [c9msg] rfl rfl c9msg
    (by simp)

theorem c10_witness :
    approve testEnv wZero (Sum.inr 2) [12] [13] (some (.num 0)) =
      approve testEnv wZero (Sum.inr 2) [12] [13] none ∧
    (approve testEnv wZero (Sum.inr 2) [12] [13] (some (.num 0))).1.filter
        isApproveTx =
      [.approveTx [13] [12] maxUint256] := by
  refine ⟨(c10_zero_amount_unbounded testEnv wZero (Sum.inr 2) [12] [13]).1, ?_⟩
  have h := (c10_zero_amount_unbounded testEnv wZero (Sum.inr 2) [12] [13]).2
    [1] rfl
  rw [h]
  exact if_pos (by decide)

end Wormhole
